import Mathlib

/-!
Shallow embedding of the bleClockSync firmware (src/main.py and src/boot.py)
and proofs about its claimed properties.

Side-effecting MicroPython code is embedded as pure functions over explicit
environments: Wi-Fi poll outcomes become a `Nat → Bool` stream, NTP query
outcomes a `Nat → Option Nat` stream (`none` = the query raised), BLE phase
outcomes per-attempt Boolean streams, the RTC memory slot an
`Option StateDict` (`none` = empty, corrupt or undecodable content), and the
advertisement stream a list of structured advertisements.
-/

namespace BleClockSync

/-! ## Configuration constants (src/main.py lines 14-41, src/boot.py line 103) -/

/-- Wi-Fi backoff schedule in seconds (src/main.py line 17). -/
def WIFI_BACKOFF_S : List Nat := [5, 10, 20]

/-- Timezone offset in seconds, UTC+7 Bangkok (src/main.py line 19). -/
def TZ_OFFSET : Nat := 25230

/-- Number of NTP attempts (src/main.py line 21). -/
def NTP_TRIES : Nat := 5

/-- Configured target peripheral addresses (src/main.py lines 23-26). -/
def LY_CLOCKS : List String := ["18:5E:D1:40:DC:CB", "E7:2E:00:50:60:74"]

/-- Base sleep duration in seconds, 4 hours (src/main.py line 34). -/
def BASE_SLEEP_SEC : Nat := 4 * 3600

/-- Default timezone offset of boot.sync_rtc in seconds (src/boot.py line 103). -/
def BOOT_TZ_OFFSET : Nat := 25205

/-! ## Persistent state (src/main.py lines 111-121)

The state is a JSON dict stored in RTC memory.  The code only ever reads the
keys "wifi_fails" and "ntp_fails" (with default 0); the spec additionally
speaks of a diagnostic token, so an optional token field is carried to make
its absence from every code path expressible. -/

/-- The JSON dict persisted in RTC memory, with each key optional exactly as
a Python dict may or may not hold it. -/
structure StateDict where
  wifi_fails : Option Nat
  ntp_fails : Option Nat
  diagnostic_token : Option String
deriving Repr, DecidableEq

/-- The empty Python dict value returned by load_state on empty or
undecodable memory. -/
def emptyDict : StateDict := ⟨none, none, none⟩

/-- Embedding of load_state (src/main.py lines 111-117): RTC memory that is
empty, corrupt or undecodable is modelled as `none` and yields the empty
dict; successfully decoded content yields the decoded dict.  The Python
bare `except` means the function never raises, which the total Lean
function reflects. -/
def load_state (slot : Option StateDict) : StateDict := slot.getD emptyDict

/-! ## Sleep plan (src/main.py lines 293-295) -/

/-- Sleep multiplier from the NTP fail count, translated from the Python
conditional expression `4 if ntp_fails >= 6 else 2 if ntp_fails >= 3 else 1`
(src/main.py line 295). -/
def sleep_multiplier (f : Nat) : Nat :=
  if 6 ≤ f then 4 else if 3 ≤ f then 2 else 1

/-- Chosen sleep duration in seconds for a given NTP fail count
(src/main.py line 295). -/
def sleep_sec_of (f : Nat) : Nat := BASE_SLEEP_SEC * sleep_multiplier f

/-! ## Calendar model of MicroPython time.gmtime

MicroPython `time.gmtime(secs)` interprets `secs` as seconds since
2000-01-01 00:00:00 UTC (the port epoch) and returns
(year, month, mday, hour, minute, second, weekday, yearday) with weekday
0 = Monday .. 6 = Sunday.  2000-01-01 was a Saturday, weekday 5. -/

/-- Gregorian leap-year test. -/
def isLeap (y : Nat) : Bool := (y % 4 == 0 && y % 100 != 0) || y % 400 == 0

/-- Number of days in a year. -/
def daysInYear (y : Nat) : Nat := if isLeap y then 366 else 365

/-- Month lengths of a year, January first. -/
def monthLengths (y : Nat) : List Nat :=
  [31, if isLeap y then 29 else 28, 31, 30, 31, 30, 31, 31, 30, 31, 30, 31]

/-- Fuel-indexed year scan: starting at year `y`, drop whole years from the
day count `d`.  Every step removes at least 365 days, so `d` itself is
always enough fuel. -/
def yearScan : Nat → Nat → Nat → Nat × Nat
  | 0, y, d => (y, d)
  | fuel + 1, y, d =>
      if d < daysInYear y then (y, d) else yearScan fuel (y + 1) (d - daysInYear y)

/-- Month scan over the month-length table: returns (1-based month,
0-based day of month). -/
def monthScan : List Nat → Nat → Nat → Nat × Nat
  | [], m, d => (m, d)
  | len :: rest, m, d =>
      if d < len then (m, d) else monthScan rest (m + 1) (d - len)

/-- Broken-down time tuple as returned by time.gmtime. -/
structure Tm where
  year : Nat
  month : Nat
  mday : Nat
  hour : Nat
  minute : Nat
  second : Nat
  wday : Nat
deriving Repr, DecidableEq

/-- Model of MicroPython time.gmtime over the 2000-01-01 epoch. -/
def gmtime (t : Nat) : Tm :=
  let days := t / 86400
  let secs := t % 86400
  let yd := yearScan days 2000 days
  let md := monthScan (monthLengths yd.1) 1 yd.2
  { year := yd.1, month := md.1, mday := md.2 + 1,
    hour := secs / 3600, minute := secs % 3600 / 60, second := secs % 60,
    wday := (days + 5) % 7 }

/-! ## boot.py sync_rtc (src/boot.py lines 103-122) -/

/-- The 8-tuple written to machine.RTC().datetime. -/
structure RtcTuple where
  year : Nat
  month : Nat
  mday : Nat
  weekday : Nat
  hour : Nat
  minute : Nat
  second : Nat
  subsec : Nat
deriving Repr, DecidableEq

/-- Weekday conversion used when setting the RTC, translated from
`local[6] + 1` (src/boot.py line 113). -/
def weekday_map (w : Nat) : Nat := w + 1

/-- RTC datetime application of boot.sync_rtc (src/boot.py lines 109-115):
shift UTC by the timezone offset, then write (Y, M, D, weekday+1, H, M, S, 0). -/
def boot_rtc_apply (utc tz_offset : Nat) : RtcTuple :=
  let l := gmtime (utc + tz_offset)
  ⟨l.year, l.month, l.mday, weekday_map l.wday, l.hour, l.minute, l.second, 0⟩

/-- Attempt loop of boot.sync_rtc: `ntp attempt = some utc` means
ntptime.settime succeeded and time.time() then read `utc`; `none` means it
raised.  No plausibility validation and no state access occurs in boot.py. -/
def boot_sync_rtc_aux (ntp : Nat → Option Nat) (tz_offset : Nat) :
    Nat → Nat → Option RtcTuple
  | _, 0 => none
  | attempt, r + 1 =>
      match ntp attempt with
      | some utc => some (boot_rtc_apply utc tz_offset)
      | none => boot_sync_rtc_aux ntp tz_offset (attempt + 1) r

/-- Embedding of boot.sync_rtc (src/boot.py lines 103-122): returns whether
it succeeded and the RTC tuple written on success. -/
def boot_sync_rtc (ntp : Nat → Option Nat) (tries tz_offset : Nat) :
    Bool × Option RtcTuple :=
  match boot_sync_rtc_aux ntp tz_offset 1 tries with
  | some t => (true, some t)
  | none => (false, none)

/-! ## main.py sync_rtc (src/main.py lines 161-189)

This variant calls ntptime.settime (which loads the RTC with plain UTC),
validates the year, and manages the persisted fail counter; it never
applies the timezone offset to the RTC.  The third result component is the
UTC value the RTC was last set to by settime. -/

/-- Attempt loop of main.sync_rtc: on a settime success the RTC holds the
plain UTC value; a year < 2023 raises ValueError, counted as a failure. -/
def sync_rtc_aux (ntp : Nat → Option Nat) :
    Nat → Nat → StateDict → Option Nat → Bool × StateDict × Option Nat
  | _, 0, st, rtcv => (false, st, rtcv)
  | attempt, r + 1, st, rtcv =>
      match ntp attempt with
      | some utc =>
          if (gmtime utc).year < 2023 then
            sync_rtc_aux ntp (attempt + 1) r
              { st with ntp_fails := some (st.ntp_fails.getD 0 + 1) } (some utc)
          else
            (true, { st with ntp_fails := some 0 }, some utc)
      | none =>
          sync_rtc_aux ntp (attempt + 1) r
            { st with ntp_fails := some (st.ntp_fails.getD 0 + 1) } rtcv

/-- Embedding of main.sync_rtc (src/main.py lines 161-189): loads the
persisted state, runs up to NTP_TRIES attempts, returns (success, final
persisted state, UTC value the RTC was set to). -/
def sync_rtc (ntp : Nat → Option Nat) (slot : Option StateDict) :
    Bool × StateDict × Option Nat :=
  sync_rtc_aux ntp 1 NTP_TRIES (load_state slot) none

/-! ## ensure_wifi (src/main.py lines 124-159) -/

/-- Backoff loop of ensure_wifi.  `conn i` is the result of the i-th
wlan.isconnected() poll; each backoff entry performs one pre-check and then
up to `backoff` per-second polls.  On any connected poll the persisted fail
count becomes 0; each exhausted backoff window adds 1 to the running count,
which is persisted when the schedule is exhausted. -/
def wifi_try (conn : Nat → Bool) : Nat → List Nat → Nat → Bool × Nat
  | _, [], fails => (false, fails)
  | idx, b :: rest, fails =>
      if conn idx then (true, 0)
      else
        match (List.range b).find? (fun j => conn (idx + 1 + j)) with
        | some _ => (true, 0)
        | none => wifi_try conn (idx + 1 + b) rest (fails + 1)

/-- Embedding of ensure_wifi (src/main.py lines 124-159): loads the state,
runs the backoff schedule, persists the resulting wifi fail count, and
returns the connection outcome with the persisted state. -/
def ensure_wifi (conn : Nat → Bool) (slot : Option StateDict) : Bool × StateDict :=
  let state := load_state slot
  let r := wifi_try conn 0 WIFI_BACKOFF_S (state.wifi_fails.getD 0)
  (r.1, { state with wifi_fails := some r.2 })

/-! ## BLE scan and device sync (src/main.py lines 192-287) -/

/-- A structured advertisement: the extracted (upper-cased) address and the
optional advertised name. -/
structure Advert where
  mac : String
  name : Option String
deriving Repr, DecidableEq

/-- Check whether the first list occurs at the head of the second. -/
def subAt : List Char → List Char → Bool
  | [], _ => true
  | _ :: _, [] => false
  | c :: cs, d :: ds => c == d && subAt cs ds

/-- Check whether the first list occurs anywhere inside the second. -/
def hasSub : List Char → List Char → Bool
  | n, [] => subAt n []
  | n, d :: ds => subAt n (d :: ds) || hasSub n ds

/-- Python substring containment `needle in hay`. -/
def strHasSub (needle hay : String) : Bool := hasSub needle.toList hay.toList

/-- Advertisement match condition (src/main.py line 233): the address is a
configured target, or a non-empty name contains one of the product
identifiers "LYWSD02" / "MHO-C303". -/
def advert_match (targets : List String) (a : Advert) : Bool :=
  targets.contains a.mac ||
    (match a.name with
     | some n => !(n == "") && (strHasSub "LYWSD02" n || strHasSub "MHO-C303" n)
     | none => false)

/-- Set-style insertion into the found list. -/
def insert_mac (found : List String) (m : String) : List String :=
  if found.contains m then found else found ++ [m]

/-- Scan loop (src/main.py lines 215-248): advertisements are processed in
arrival order; the loop stops as soon as the found set contains every
configured target (early exit), and adds the advertised address whenever
the match condition holds. -/
def scan_go (targets : List String) : List Advert → List String → List String
  | [], found => found
  | a :: rest, found =>
      if targets.all (fun t => found.contains t) then found
      else
        scan_go targets rest
          (if advert_match targets a then insert_mac found a.mac else found)

/-- Embedding of scan_for_devices (src/main.py lines 192-260) over a given
advertisement stream.  The configured targets are already upper-case, so
target_macs coincides with LY_CLOCKS. -/
def scan_for_devices (adverts : List Advert) : List String :=
  scan_go LY_CLOCKS adverts []

/-- Embedding of sync_devices (src/main.py lines 262-287): attempts one
set_time call per found address, in order, recording each outcome. -/
def sync_devices (write : String → Bool) (devices : List String) :
    List (String × Bool) :=
  devices.map (fun m => (m, write m))

/-! ## Lywsd02TimeClient.set_time (src/main.py lines 52-76) -/

/-- Per-attempt outcomes of the BLE phases of one set_time call: connect,
time-service resolution, characteristic resolution, and the GATT write. -/
structure BleEnv where
  connectOk : Nat → Bool
  serviceOk : Nat → Bool
  charOk : Nat → Bool
  writeOk : Nat → Bool

/-- Little-endian 4-byte encoding of struct.pack format "<I" after
truncation to 32 bits. -/
def packU32LE (n : Nat) : List Nat :=
  [n % 256, n / 256 % 256, n / 65536 % 256, n / 16777216 % 256]

/-- Signed-byte encoding of struct.pack format "b": the low byte of the
two's complement representation. -/
def packI8 (z : Int) : Nat := (z % 256).toNat

/-- The payload packed by set_time (src/main.py line 58): 4-byte
little-endian timestamp followed by 1 signed timezone byte. -/
def time_payload (ts : Nat) (tz : Int) : List Nat :=
  packU32LE (ts % 4294967296) ++ [packI8 tz]

/-- Result of one set_time call: the Boolean return value and, when the
write call was reached, the payload passed to char.write together with its
response-required flag. -/
structure SetTimeResult where
  ok : Bool
  writeCall : Option (List Nat × Bool)
deriving Repr, DecidableEq

/-- Embedding of Lywsd02TimeClient.set_time (src/main.py lines 52-76):
connect, service resolution, characteristic resolution and write happen
each exactly once, in order; any raised TimeoutError/OSError turns the
whole call into False with no later phase run; the write is issued with
response required (src/main.py line 70). -/
def set_time (env : BleEnv) (ts : Nat) (tz : Int) : SetTimeResult :=
  let data := time_payload ts tz
  if env.connectOk 0 then
    if env.serviceOk 0 then
      if env.charOk 0 then
        if env.writeOk 0 then ⟨true, some (data, true)⟩
        else ⟨false, some (data, true)⟩
      else ⟨false, none⟩
    else ⟨false, none⟩
  else ⟨false, none⟩

/-- Claimed per-phase retry behavior of set_time, written from the spec's
words (three phases, each with its own bounded retry budget, a phase
succeeding as soon as one of its attempts succeeds, an exhausted phase
aborting the operation); used to compare the claim with the code. -/
def set_time_claimed (budget : Nat) (env : BleEnv) : Bool :=
  (List.range budget).any env.connectOk &&
    ((List.range budget).any env.serviceOk && (List.range budget).any env.charOk) &&
    (List.range budget).any env.writeOk

/-- Little-endian decoding of a 4-byte list. -/
def decodeU32LE (bs : List Nat) : Nat :=
  match bs with
  | [a, b, c, d] => a + 256 * b + 65536 * c + 16777216 * d
  | _ => 0

/-- Signed interpretation of one byte. -/
def decodeI8 (b : Nat) : Int := if b < 128 then (b : Int) else (b : Int) - 256

/-! ## Orchestrator (src/main.py lines 290-341) -/

/-- Environment of one wake cycle: Wi-Fi poll outcomes, NTP query outcomes,
the advertisement stream, and per-address BLE write outcomes. -/
structure Env where
  conn : Nat → Bool
  ntp : Nat → Option Nat
  adverts : List Advert
  bleWrite : String → Bool

/-- Observable outcome of one wake cycle: the returned sleep duration, the
finally persisted state, whether the NTP and scan stages ran, and the
addresses a time write was attempted on. -/
structure CycleResult where
  sleep_sec : Nat
  slot : StateDict
  ntp_attempted : Bool
  scan_attempted : Bool
  write_attempts : List String
deriving Repr, DecidableEq

/-- Embedding of main_workflow (src/main.py lines 290-327): the sleep
duration is computed from the state loaded at the start of the cycle; on
Wi-Fi failure the function returns immediately with no clock-sync,
discovery or write side effects; otherwise NTP sync, scan and device sync
run in order. -/
def main_workflow (env : Env) (slot : Option StateDict) : CycleResult :=
  let state := load_state slot
  let ntp_fails := state.ntp_fails.getD 0
  let sleep_sec :=
    BASE_SLEEP_SEC * (if 6 ≤ ntp_fails then 4 else if 3 ≤ ntp_fails then 2 else 1)
  let w := ensure_wifi env.conn slot
  if w.1 then
    let r := sync_rtc env.ntp (some w.2)
    { sleep_sec := sleep_sec, slot := r.2.1, ntp_attempted := true,
      scan_attempted := true,
      write_attempts :=
        (sync_devices env.bleWrite (scan_for_devices env.adverts)).map Prod.fst }
  else
    { sleep_sec := sleep_sec, slot := w.2, ntp_attempted := false,
      scan_attempted := false, write_attempts := [] }

/-- Embedding of the deep-sleep handoff in main (src/main.py line 341):
machine.deepsleep is called with the returned sleep duration times 1000. -/
def main_deepsleep_ms (env : Env) (slot : Option StateDict) : Nat :=
  (main_workflow env slot).sleep_sec * 1000

/-! ## Telemetry log queue -/

/-- Modelled from the spec: the telemetry log queue's flush operation is
missing from src — src/main.py only contains the direct sender
post_log_sync (lines 79-101), with no enqueue/flush pair.  Following
section 4.6 of the spec: flush attempts, in FIFO order, to deliver every
queued record; it stops at the first delivery failure, leaving the failed
record and every later record queued untouched; full success clears the
queue. -/
def flush {α : Type} (deliver : α → Bool) : List α → List α
  | [] => []
  | r :: rest => if deliver r then flush deliver rest else r :: rest

end BleClockSync

namespace BleClockSync

/-- C2: the sleep multiplier takes value 1 below 3 fails, 2 between 3 and 5,
and 4 from 6 on; it is monotone in the fail count; and the sleep duration is
the base interval times the multiplier. -/
theorem sleep_multiplier_thresholds_monotone (f : Nat) :
    (f < 3 → sleep_multiplier f = 1) ∧
    (3 ≤ f → f ≤ 5 → sleep_multiplier f = 2) ∧
    (6 ≤ f → sleep_multiplier f = 4) ∧
    (∀ g, f ≤ g → sleep_multiplier f ≤ sleep_multiplier g) ∧
    sleep_sec_of f = BASE_SLEEP_SEC * sleep_multiplier f := by
  refine ⟨?_, ?_, ?_, ?_, rfl⟩
  · intro h
    simp [sleep_multiplier, Nat.not_le.mpr (by omega : f < 6), Nat.not_le.mpr h]
  · intro h3 h5
    simp [sleep_multiplier, Nat.not_le.mpr (by omega : f < 6), h3]
  · intro h6
    simp [sleep_multiplier, h6]
  · intro g hfg
    unfold sleep_multiplier
    repeat' split
    all_goals omega

/-- Witness for the threshold theorem at concrete fail counts. -/
theorem sleep_multiplier_thresholds_monotone_witness :
    sleep_multiplier 2 = 1 ∧ sleep_multiplier 4 = 2 ∧ sleep_multiplier 7 = 4 := by
  refine ⟨(sleep_multiplier_thresholds_monotone 2).1 (by decide),
          (sleep_multiplier_thresholds_monotone 4).2.1 (by decide) (by decide),
          (sleep_multiplier_thresholds_monotone 7).2.2.1 (by decide)⟩

/-- C7: the weekday conversion used when setting the RTC agrees with
`weekday == 6 ? 7 : weekday + 1` on every input 0..6, maps 0..6 bijectively
onto 1..7, and is exactly what boot_rtc_apply writes into the weekday field
(whose source value gmtime always keeps in 0..6). -/
theorem weekday_map_correct :
    (∀ w, w ≤ 6 → weekday_map w = if w = 6 then 7 else w + 1) ∧
    (List.range 7).map weekday_map = [1, 2, 3, 4, 5, 6, 7] ∧
    (∀ w w', w ≤ 6 → w' ≤ 6 → weekday_map w = weekday_map w' → w = w') ∧
    (∀ utc tz, (boot_rtc_apply utc tz).weekday = weekday_map (gmtime (utc + tz)).wday ∧
      (gmtime (utc + tz)).wday ≤ 6) := by
  refine ⟨?_, by decide, ?_, ?_⟩
  · intro w hw
    by_cases h : w = 6
    · subst h; simp [weekday_map]
    · simp [weekday_map, h]
  · intro w w' _ _ h
    simpa [weekday_map] using h
  · intro utc tz
    refine ⟨rfl, ?_⟩
    have h7 : ((utc + tz) / 86400 + 5) % 7 < 7 := Nat.mod_lt _ (by norm_num)
    simp only [gmtime]
    omega

/-- Witness for the weekday theorem at the boundary input 6. -/
theorem weekday_map_correct_witness :
    weekday_map 6 = if 6 = 6 then 7 else 6 + 1 :=
  weekday_map_correct.1 6 (by decide)

/-- Helper: every true-returning run of the main.sync_rtc attempt loop ends
with the fail counter zeroed, the other dict fields untouched, and the RTC
holding a plain UTC value whose year passed the 2023 validation. -/
theorem sync_rtc_aux_true (ntp : Nat → Option Nat) :
    ∀ r attempt st0 rv0 st rv,
      sync_rtc_aux ntp attempt r st0 rv0 = (true, st, rv) →
      st.ntp_fails = some 0 ∧ st.wifi_fails = st0.wifi_fails ∧
      st.diagnostic_token = st0.diagnostic_token ∧
      ∃ utc, rv = some utc ∧ 2023 ≤ (gmtime utc).year := by
  intro r
  induction r with
  | zero =>
      intro attempt st0 rv0 st rv h
      simp [sync_rtc_aux] at h
  | succ n ih =>
      intro attempt st0 rv0 st rv h
      simp only [sync_rtc_aux] at h
      split at h
      · rename_i utc heq
        split at h
        · exact ih (attempt + 1)
            { st0 with ntp_fails := some (st0.ntp_fails.getD 0 + 1) } (some utc) st rv h
        · rename_i hy
          have hst : ({ st0 with ntp_fails := some 0 } : StateDict) = st :=
            congrArg (fun p => p.2.1) h
          have hrv : (some utc : Option Nat) = rv :=
            congrArg (fun p => p.2.2) h
          subst hst
          subst hrv
          exact ⟨rfl, rfl, rfl, utc, rfl, Nat.not_lt.mp hy⟩
      · exact ih (attempt + 1)
          { st0 with ntp_fails := some (st0.ntp_fails.getD 0 + 1) } rv0 st rv h

/-- C1 (amended): whenever the orchestrated clock synchronizer
(main.sync_rtc) returns true, the persisted ntp fail counter is reset to 0
with the rest of the dict untouched and the RTC was set to a plain UTC
value whose year passed validation (no timezone offset is applied there);
the UTC-plus-offset application with the Monday-based 1..7 weekday and
zero sub-second happens only in boot.sync_rtc's RTC write. -/
theorem sync_rtc_success_behavior :
    (∀ ntp slot st rv, sync_rtc ntp slot = (true, st, rv) →
        st.ntp_fails = some 0 ∧
        st.wifi_fails = (load_state slot).wifi_fails ∧
        ∃ utc, rv = some utc ∧ 2023 ≤ (gmtime utc).year) ∧
    (∀ utc tz, boot_rtc_apply utc tz =
        { year := (gmtime (utc + tz)).year, month := (gmtime (utc + tz)).month,
          mday := (gmtime (utc + tz)).mday,
          weekday := (gmtime (utc + tz)).wday + 1,
          hour := (gmtime (utc + tz)).hour, minute := (gmtime (utc + tz)).minute,
          second := (gmtime (utc + tz)).second, subsec := 0 }) := by
  constructor
  · intro ntp slot st rv h
    have := sync_rtc_aux_true ntp NTP_TRIES 1 (load_state slot) none st rv h
    exact ⟨this.1, this.2.1, this.2.2.2⟩
  · intro utc tz
    rfl

/-- Witness: the success characterization applied to a run whose first try
returns the validated timestamp 725846400 (2023-01-01 UTC). -/
theorem sync_rtc_success_behavior_witness :
    (⟨none, some 0, none⟩ : StateDict).ntp_fails = some 0 ∧
    (⟨none, some 0, none⟩ : StateDict).wifi_fails = (load_state none).wifi_fails ∧
    ∃ utc, (some 725846400 : Option Nat) = some utc ∧ 2023 ≤ (gmtime utc).year :=
  sync_rtc_success_behavior.1 (fun _ => some 725846400) none ⟨none, some 0, none⟩
    (some 725846400) (by decide)

/-- Helper: when no poll ever reports a connection, the backoff loop fails
and adds one to the fail count per schedule entry. -/
theorem wifi_try_never (conn : Nat → Bool) (h : ∀ i, conn i = false) :
    ∀ bs idx fails, wifi_try conn idx bs fails = (false, fails + bs.length) := by
  intro bs
  induction bs with
  | nil => intro idx fails; simp [wifi_try]
  | cons b rest ih =>
      intro idx fails
      have hf : (List.range b).find? (fun j => conn (idx + 1 + j)) = none := by
        rw [List.find?_eq_none]
        intro x _
        simp [h]
      simp only [wifi_try, h idx, Bool.false_eq_true, if_false, hf, ih]
      refine congrArg (Prod.mk false) ?_
      simp [List.length_cons]
      omega

/-- C3 (amended): the sleep duration is computed from the fail counters as
loaded at the start of the cycle — before this cycle's Wi-Fi and NTP
outcomes are persisted — and the device enters deep sleep for exactly that
duration times 1000 milliseconds. -/
theorem sleep_duration_from_cycle_start (env : Env) (slot : Option StateDict) :
    (main_workflow env slot).sleep_sec =
      BASE_SLEEP_SEC * sleep_multiplier ((load_state slot).ntp_fails.getD 0) ∧
    main_deepsleep_ms env slot = (main_workflow env slot).sleep_sec * 1000 := by
  refine ⟨?_, rfl⟩
  simp only [main_workflow, sleep_multiplier]
  split <;> rfl

/-- C3 counterexample: starting with a persisted ntp fail count of 2, a
cycle in which Wi-Fi connects and all five NTP tries fail persists a fail
count of 7, yet sleeps 14400 s (multiplier of the stale count 2), not the
57600 s the counters persisted at the SUMMARY point would give. -/
theorem sleep_stale_counter_counterexample :
    (main_workflow ⟨fun _ => true, fun _ => none, [], fun _ => false⟩
        (some ⟨some 0, some 2, none⟩)).slot.ntp_fails = some 7 ∧
    (main_workflow ⟨fun _ => true, fun _ => none, [], fun _ => false⟩
        (some ⟨some 0, some 2, none⟩)).sleep_sec = 14400 ∧
    BASE_SLEEP_SEC * sleep_multiplier 7 = 57600 ∧
    (main_workflow ⟨fun _ => true, fun _ => none, [], fun _ => false⟩
        (some ⟨some 0, some 2, none⟩)).sleep_sec ≠
      BASE_SLEEP_SEC * sleep_multiplier
        ((main_workflow ⟨fun _ => true, fun _ => none, [], fun _ => false⟩
            (some ⟨some 0, some 2, none⟩)).slot.ntp_fails.getD 0) :=
  ⟨by decide, by decide, by decide, by decide⟩

/-- C4 (amended): a run in which the connection is never established
exhausts the whole backoff schedule, increments the persisted wifi fail
counter once per schedule entry — by 3 for the configured schedule — and
returns failure; the orchestrator then goes directly to sleep with no
clock-sync, discovery or write side effects, using the multiplier of the
prior ntp fail count. -/
theorem wifi_exhaustion_behavior (env : Env) (slot : Option StateDict)
    (h : ∀ i, env.conn i = false) :
    ensure_wifi env.conn slot =
      (false, { load_state slot with
        wifi_fails := some ((load_state slot).wifi_fails.getD 0 + 3) }) ∧
    (main_workflow env slot).ntp_attempted = false ∧
    (main_workflow env slot).scan_attempted = false ∧
    (main_workflow env slot).write_attempts = [] ∧
    (main_workflow env slot).slot =
      { load_state slot with
        wifi_fails := some ((load_state slot).wifi_fails.getD 0 + 3) } ∧
    (main_workflow env slot).sleep_sec =
      BASE_SLEEP_SEC * sleep_multiplier ((load_state slot).ntp_fails.getD 0) := by
  have hw : ensure_wifi env.conn slot =
      (false, { load_state slot with
        wifi_fails := some ((load_state slot).wifi_fails.getD 0 + 3) }) := by
    simp only [ensure_wifi, wifi_try_never env.conn h]
    rfl
  refine ⟨hw, ?_, ?_, ?_, ?_, ?_⟩ <;>
    simp only [main_workflow, hw, sleep_multiplier] <;> rfl

/-- Witness: the exhaustion behavior at the all-failing environment and an
empty slot. -/
theorem wifi_exhaustion_behavior_witness :
    ensure_wifi (Env.conn ⟨fun _ => false, fun _ => none, [], fun _ => false⟩) none =
      (false, { load_state none with
        wifi_fails := some ((load_state none).wifi_fails.getD 0 + 3) }) ∧
    (main_workflow ⟨fun _ => false, fun _ => none, [], fun _ => false⟩
        none).ntp_attempted = false ∧
    (main_workflow ⟨fun _ => false, fun _ => none, [], fun _ => false⟩
        none).scan_attempted = false ∧
    (main_workflow ⟨fun _ => false, fun _ => none, [], fun _ => false⟩
        none).write_attempts = [] ∧
    (main_workflow ⟨fun _ => false, fun _ => none, [], fun _ => false⟩ none).slot =
      { load_state none with
        wifi_fails := some ((load_state none).wifi_fails.getD 0 + 3) } ∧
    (main_workflow ⟨fun _ => false, fun _ => none, [], fun _ => false⟩
        none).sleep_sec =
      BASE_SLEEP_SEC * sleep_multiplier ((load_state none).ntp_fails.getD 0) :=
  wifi_exhaustion_behavior ⟨fun _ => false, fun _ => none, [], fun _ => false⟩ none
    (fun _ => rfl)

/-- C4 counterexample: with no prior failures and no connection ever
established, the persisted wifi fail count becomes 3 — one per backoff
entry — not 1 as claimed. -/
theorem wifi_fail_increment_counterexample :
    ensure_wifi (fun _ => false) none = (false, ⟨some 3, none, none⟩) ∧
    (3 : Nat) ≠ 0 + 1 :=
  ⟨by decide, by decide⟩

/-- C10: the scan result is not confined to the configured targets — an
advertisement whose name contains a product identifier is added although
its address is not configured, and sync_devices then attempts a time write
to that non-target address. -/
theorem scan_nontarget_write_attempt :
    scan_for_devices [⟨"AA:BB:CC:DD:EE:FF", some "LYWSD02 clock"⟩] =
      ["AA:BB:CC:DD:EE:FF"] ∧
    LY_CLOCKS.contains "AA:BB:CC:DD:EE:FF" = false ∧
    ∀ write : String → Bool,
      (sync_devices write
          (scan_for_devices [⟨"AA:BB:CC:DD:EE:FF", some "LYWSD02 clock"⟩])).map
        Prod.fst = ["AA:BB:CC:DD:EE:FF"] := by
  refine ⟨by decide, by decide, fun write => rfl⟩

/-- C5 (amended): in set_time each phase — connect, resolve, write — is
attempted exactly once, not with a multi-attempt retry budget; a failed
connect attempt aborts the whole operation as failed with no later phase
attempted; the call's result depends only on the single first attempt of
each phase; and it succeeds exactly when all four steps succeed. -/
theorem set_time_single_attempt (env : BleEnv) (ts : Nat) (tz : Int) :
    (env.connectOk 0 = false → set_time env ts tz = ⟨false, none⟩) ∧
    (∀ env' : BleEnv, env'.connectOk 0 = env.connectOk 0 →
      env'.serviceOk 0 = env.serviceOk 0 → env'.charOk 0 = env.charOk 0 →
      env'.writeOk 0 = env.writeOk 0 → set_time env' ts tz = set_time env ts tz) ∧
    (set_time env ts tz).ok =
      (env.connectOk 0 && (env.serviceOk 0 && env.charOk 0) && env.writeOk 0) := by
  refine ⟨?_, ?_, ?_⟩
  · intro h
    simp [set_time, h]
  · intro env' h1 h2 h3 h4
    simp only [set_time, h1, h2, h3, h4]
  · simp only [set_time]
    cases hc : env.connectOk 0 <;> cases hs : env.serviceOk 0 <;>
      cases hh : env.charOk 0 <;> cases hw : env.writeOk 0 <;> simp

/-- Witness: the single-attempt abort applied at an environment whose
first connect attempt fails. -/
theorem set_time_single_attempt_witness :
    set_time ⟨fun _ => false, fun _ => true, fun _ => true, fun _ => true⟩ 7 7 =
      ⟨false, none⟩ :=
  (set_time_single_attempt
      ⟨fun _ => false, fun _ => true, fun _ => true, fun _ => true⟩ 7 7).1 rfl

/-- C5 counterexample: in an environment whose connect fails on the first
attempt but would succeed on every later one, the code returns failure,
while the claimed per-phase retry budget of 5 attempts would succeed — the
code has no retry loop in any phase. -/
theorem set_time_no_retry_counterexample :
    (set_time ⟨fun i => decide (1 ≤ i), fun _ => true, fun _ => true, fun _ => true⟩
        0 0).ok = false ∧
    set_time_claimed 5
      ⟨fun i => decide (1 ≤ i), fun _ => true, fun _ => true, fun _ => true⟩ = true :=
  ⟨by decide, by decide⟩

/-- C6: whenever set_time reaches its characteristic write, the payload is
exactly the 5 bytes of the 4-byte little-endian unsigned timestamp followed
by 1 signed timezone byte, the write requires acknowledgment, and the two
fields decode back to the inputs on their representable ranges. -/
theorem set_time_wire_contract (env : BleEnv) (ts : Nat) (tz : Int)
    (d : List Nat) (ack : Bool)
    (hw : (set_time env ts tz).writeCall = some (d, ack)) :
    d = time_payload ts tz ∧ d.length = 5 ∧ ack = true ∧
    d.take 4 = packU32LE (ts % 4294967296) ∧ d.drop 4 = [packI8 tz] ∧
    (ts < 4294967296 → decodeU32LE (d.take 4) = ts) ∧
    (-128 ≤ tz → tz ≤ 127 → decodeI8 (d.getD 4 0) = tz) := by
  have hd : d = time_payload ts tz ∧ ack = true := by
    simp only [set_time] at hw
    split at hw
    · split at hw
      · split at hw
        · split at hw <;> (cases hw; exact ⟨rfl, rfl⟩)
        · cases hw
      · cases hw
    · cases hw
  obtain ⟨hd1, hd2⟩ := hd
  subst hd1
  refine ⟨rfl, rfl, hd2, rfl, rfl, ?_, ?_⟩
  · intro hts
    have hmod : ts % 4294967296 = ts := Nat.mod_eq_of_lt hts
    simp only [time_payload, packU32LE, decodeU32LE, hmod, List.take]
    omega
  · intro h1 h2
    show decodeI8 (packI8 tz) = tz
    simp only [packI8, decodeI8]
    split <;> omega

/-- Witness: the wire contract applied at an all-succeeding environment
with timestamp 1700000000 and timezone 7. -/
theorem set_time_wire_contract_witness :
    time_payload 1700000000 7 = time_payload 1700000000 7 ∧
    (time_payload 1700000000 7).length = 5 ∧ (true = true) ∧
    (time_payload 1700000000 7).take 4 = packU32LE (1700000000 % 4294967296) ∧
    (time_payload 1700000000 7).drop 4 = [packI8 7] ∧
    (1700000000 < 4294967296 →
      decodeU32LE ((time_payload 1700000000 7).take 4) = 1700000000) ∧
    (-128 ≤ (7 : Int) → (7 : Int) ≤ 127 →
      decodeI8 ((time_payload 1700000000 7).getD 4 0) = 7) :=
  set_time_wire_contract ⟨fun _ => true, fun _ => true, fun _ => true, fun _ => true⟩
    1700000000 7 (time_payload 1700000000 7) true (by decide)

/-- C8 (amended): for every slot content, load_state never fails upward —
empty, corrupt or undecodable content yields the empty dict, whose two fail
counters read as 0 under the defaulting reads the callers use; no
diagnostic token is generated, the default state's token field being
absent; decoded content is returned verbatim. -/
theorem load_state_default_behavior :
    load_state none = emptyDict ∧
    (load_state none).wifi_fails.getD 0 = 0 ∧
    (load_state none).ntp_fails.getD 0 = 0 ∧
    (load_state none).diagnostic_token = none ∧
    (∀ d, load_state (some d) = d) :=
  ⟨rfl, rfl, rfl, rfl, fun _ => rfl⟩

/-- C8 counterexample: the state load_state returns for empty or
undecodable content carries no diagnostic token at all — its token field
is `none` and equals no generated string — contradicting the claimed
freshly generated token. -/
theorem load_state_no_token_counterexample :
    (load_state none).diagnostic_token = none ∧
    ∀ s : String, (load_state none).diagnostic_token ≠ some s :=
  ⟨rfl, fun _ h => Option.noConfusion h⟩

/-- C9: flush delivers queued records in FIFO order and stops at the first
delivery failure, leaving the failed record and all later records queued
unchanged — the remaining queue is a suffix of the original, every record
before it was delivered, and its front record failed — while a flush in
which every delivery succeeds leaves the queue empty. -/
theorem flush_fifo_stop_on_failure {α : Type} (deliver : α → Bool) (q : List α) :
    (∃ n, n ≤ q.length ∧ flush deliver q = q.drop n ∧
      (∀ j, j < n → ∀ hq : j < q.length, deliver (q.get ⟨j, hq⟩) = true) ∧
      (∀ x l, flush deliver q = x :: l → deliver x = false)) ∧
    ((∀ r ∈ q, deliver r = true) → flush deliver q = []) := by
  induction q with
  | nil => exact ⟨⟨0, by simp, by simp [flush], by simp, by simp [flush]⟩, fun _ => rfl⟩
  | cons a rest ih =>
      by_cases h : deliver a = true
      · obtain ⟨⟨n, hn, hdrop, hdel, hstop⟩, hall⟩ := ih
        have heq : flush deliver (a :: rest) = flush deliver rest := by simp [flush, h]
        refine ⟨⟨n + 1, by simpa using hn, ?_, ?_, ?_⟩, ?_⟩
        · simpa [heq] using hdrop
        · intro j hj hq
          cases j with
          | zero => simpa using h
          | succ k => exact hdel k (by omega) (by simpa using hq)
        · intro x l hx
          exact hstop x l (heq ▸ hx)
        · intro hr
          rw [heq]
          exact hall (fun r hrr => hr r (List.mem_cons_of_mem a hrr))
      · have heq : flush deliver (a :: rest) = a :: rest := by simp [flush, h]
        refine ⟨⟨0, by simp, by simp [heq], by simp, ?_⟩, ?_⟩
        · intro x l hx
          rw [heq] at hx
          cases hx
          simpa using h
        · intro hr
          exact absurd (hr a (List.mem_cons_self a rest)) (by simpa using h)

/-- Witness: a fully succeeding flush of a two-record queue leaves it
empty. -/
theorem flush_fifo_stop_on_failure_witness :
    flush (fun _ : Nat => true) [1, 2] = [] :=
  (flush_fifo_stop_on_failure (fun _ : Nat => true) [1, 2]).2 (by decide)

/-- C1 counterexample: on a run whose first try yields the validated
timestamp 725846400 (2023-01-01 00:00:00 UTC), main.sync_rtc returns true
with the counter reset, but the RTC holds plain UTC — hour 0 — whereas
UTC plus the fixed timezone offset has hour 7: the claimed timezone
application to the RTC does not happen in the synchronizer the
orchestrator calls. -/
theorem sync_rtc_no_tz_counterexample :
    sync_rtc (fun _ => some 725846400) none =
      (true, ⟨none, some 0, none⟩, some 725846400) ∧
    (gmtime 725846400).hour = 0 ∧
    (gmtime (725846400 + TZ_OFFSET)).hour = 7 ∧
    (gmtime 725846400).hour ≠ (gmtime (725846400 + TZ_OFFSET)).hour := by
  refine ⟨by decide, by decide, by decide, by decide⟩

end BleClockSync
